import Mathlib

/-!
# Verification of the slack-rag-server event verification and dispatch core

Shallow embedding of the request classification, signature-verification
control flow, handshake handling, event dispatch and slash-command routing
implemented in `main.go`, the thread-message gate implemented in the Go
message handler (`handlers` package, `HandleThreadMessage`), and the
standalone Bolt middlewares in `utils.js` (event deduplication set and
app-start staleness filter).

Library calls (Go `encoding/json.Unmarshal`, `slack.NewSecretsVerifier` /
`Ensure`, `net/http.Request.ParseForm`) are external collaborators: their
outcomes are inputs to the embedded handlers, while every branch decision
taken by the repository's own code is modelled faithfully.
-/

namespace SlackRagServer

/-- Minimal JSON value model, the image of Go `encoding/json.Unmarshal`
into `map[string]interface{}` (numbers' exact representation is irrelevant
to the handlers, which only ever type-assert strings and objects). -/
inductive Json where
  | null
  | bool (b : Bool)
  | num (n : Int)
  | str (s : String)
  | arr (xs : List Json)
  | obj (fields : List (String × Json))

/-- A decoded top-level JSON object, as `map[string]interface{}`. -/
abbrev JsonObj := List (String × Json)

/-- Field lookup in a decoded JSON object (Go map indexing; objects decoded
from JSON have distinct keys, so first-match lookup agrees with the map). -/
def jLookup (o : JsonObj) (k : String) : Option Json :=
  o.lookup k

/-- Go `m[k].(string)` type assertion: the value if present and a string. -/
def getStr (o : JsonObj) (k : String) : Option String :=
  match jLookup o k with
  | some (Json.str s) => some s
  | _ => none

/-- Go `m[k].(map[string]interface{})` type assertion. -/
def getObj (o : JsonObj) (k : String) : Option JsonObj :=
  match jLookup o k with
  | some (Json.obj f) => some f
  | _ => none

/-- String field with Go's struct zero value `""` when absent; models
decoding the event object into a `slackevents.MessageEvent` struct field. -/
def getStrD (o : JsonObj) (k : String) : String :=
  (getStr o k).getD ""

/-- `leadsWith pat s` : `pat` is a leading segment of `s`
(Go `strings.HasPrefix s pat`). -/
def leadsWith : List Char → List Char → Bool
  | [], _ => true
  | _ :: _, [] => false
  | b :: bs, a :: as => b == a && leadsWith bs as

/-- `hasOccurrence pat s` : `pat` occurs contiguously in `s`. -/
def hasOccurrence : List Char → List Char → Bool
  | pat, [] => leadsWith pat []
  | pat, a :: rest => leadsWith pat (a :: rest) || hasOccurrence pat rest

/-- Go `strings.Contains s pat`. -/
def strContains (s pat : String) : Bool :=
  hasOccurrence pat.toList s.toList

/-- Go `strings.ToLower`, character by character (all strings compared by
the handlers are ASCII). -/
def lowercase (s : String) : List Char :=
  s.toList.map Char.toLower

/-- Outcome of the slack-go signature verifier for a given request, an
external library collaborator (`slack.NewSecretsVerifier` + `Ensure`):
`constructError` -- `NewSecretsVerifier` returns an error (timestamp
header missing, unparseable, or outside the allowed skew);
`signatureMismatch` -- construction succeeds but `Ensure` would report a
signature mismatch; `valid` -- construction and `Ensure` both succeed. -/
inductive VerifierOutcome where
  | constructError
  | signatureMismatch
  | valid
deriving Repr, DecidableEq

/-- The registered slash-command handlers (`main.go` lines 304-322). -/
inductive CommandName where
  | getDataSource
  | syncDataSource
  | help
  | kbStatus
  | dsConfig
  | agentStatus
  | listDataSources
  | jobStatus
  | healthCheck
deriving Repr, DecidableEq

/-- The fixed command registry: the `switch s.Command` in
`handleSlashCommand` (`main.go` lines 304-325); Go `switch` on strings is
an exact, case-sensitive match, the `default` arm only logs. -/
def commandRegistry (c : String) : Option CommandName :=
  if c = "/ragbot-get-datasource" then some CommandName.getDataSource
  else if c = "/ragbot-sync-datasource" then some CommandName.syncDataSource
  else if c = "/ragbot-help" then some CommandName.help
  else if c = "/ragbot-kb-status" then some CommandName.kbStatus
  else if c = "/ragbot-ds-config" then some CommandName.dsConfig
  else if c = "/ragbot-agent-status" then some CommandName.agentStatus
  else if c = "/ragbot-list-datasources" then some CommandName.listDataSources
  else if c = "/ragbot-job-status" then some CommandName.jobStatus
  else if c = "/ragbot-health-check" then some CommandName.healthCheck
  else none

/-- Parsed form data: outcome of `r.ParseForm()` and the resulting
`r.Form` multimap (`none` = `ParseForm` error). `Form.Get` returns the
first value of a key, `""` when absent. -/
abbrev FormData := List (String × String)

/-- Go `url.Values.Get`. -/
def formGet (f : FormData) (k : String) : String :=
  match f.lookup k with
  | some v => v
  | none => ""

/-- Terminal outcomes of `handleSlashCommand` (`main.go` lines 230-331). -/
inductive CommandOutcome where
  /-- `NewSecretsVerifier` errored: 400, line 252. -/
  | constructFail
  /-- `sv.Ensure()` errored: 401, line 261 (only reachable with a
  non-empty body, line 257). -/
  | sigFail
  /-- `r.ParseForm()` errored: 400, line 269. -/
  | formFail
  /-- `command` form field empty: 400, line 280. -/
  | missingCommand
  /-- Acknowledged 200 with empty body (line 330); `dispatch` is the
  registry hit handed to the goroutine switch (`none` = unknown command,
  logged only, no handler and hence no Agent Client call). -/
  | ok (dispatch : Option CommandName)
deriving Repr, DecidableEq

/-- Result of the slash-command path; `ensureRun` records whether
`sv.Ensure()` was actually executed for this request. -/
structure CommandResult where
  outcome : CommandOutcome
  ensureRun : Bool
deriving Repr, DecidableEq

/-- The form-field stage of `handleSlashCommand` (`main.go` lines
266-325): parse the form, read `command`, build the `SlashCommand`, and
select a handler by exact match. -/
def formStage (form : Option FormData) : CommandOutcome :=
  match form with
  | none => CommandOutcome.formFail
  | some f =>
    let c := formGet f "command"
    if c = "" then CommandOutcome.missingCommand
    else CommandOutcome.ok (commandRegistry c)

/-- `handleSlashCommand` (`main.go` lines 230-331): buffer the body,
construct the secrets verifier, run `Ensure` only when the buffered body
is non-empty (line 257), then parse the form and dispatch by registry. -/
def handleSlashCommand (body : String) (v : VerifierOutcome)
    (form : Option FormData) : CommandResult :=
  if v = VerifierOutcome.constructError then
    ⟨CommandOutcome.constructFail, false⟩
  else if body = "" then
    ⟨formStage form, false⟩
  else if v = VerifierOutcome.signatureMismatch then
    ⟨CommandOutcome.sigFail, true⟩
  else
    ⟨formStage form, true⟩

/-- HTTP status written by the slash-command path. -/
def commandStatus : CommandOutcome → Nat
  | CommandOutcome.constructFail => 400
  | CommandOutcome.sigFail => 401
  | CommandOutcome.formFail => 400
  | CommandOutcome.missingCommand => 400
  | CommandOutcome.ok _ => 200

/-- Handler dispatched on the slash-command path, if any. -/
def commandDispatch : CommandOutcome → Option CommandName
  | CommandOutcome.ok d => d
  | _ => none

/-- Response body written by the slash-command path: the path only ever
calls `w.WriteHeader`, never `w.Write` (`main.go` lines 237-330), so the
body is empty in every outcome. -/
def commandRespBody : CommandOutcome → Option String :=
  fun _ => none

/-- The four message handlers reachable from the events goroutine
(`main.go` lines 157-198). -/
inductive HandlerKind where
  | mention
  | directThread
  | thread
  | directMessage
deriving Repr, DecidableEq

/-- Outcome of the dispatch goroutine (`main.go` lines 139-203). -/
inductive DispatchOutcome where
  /-- A message handler was invoked. -/
  | handler (h : HandlerKind)
  /-- A `message` event with no thread and a non-IM channel: the
  `if`/`else if` chain at lines 190-198 falls through, nothing runs. -/
  | ignoredMessage
  /-- `default` arm, line 201: logged as unhandled, no dispatch. -/
  | unhandledType (t : String)
  /-- No `event` object in the envelope (line 143): logged, no dispatch. -/
  | noEventObject
  /-- No string `type` in the event object (line 150): logged, no
  dispatch. -/
  | noEventType
deriving Repr, DecidableEq

/-- The dispatch goroutine of the events endpoint (`main.go` lines
139-203): extract the `event` object and its `type` tag, then route
`app_mention` to the mention handler and `message` events by thread
marker and channel type; the re-marshal / re-unmarshal into the
`slackevents` structs is modelled as direct field extraction with Go's
zero value `""` for absent fields. -/
def dispatchEvent (slackEvent : JsonObj) : DispatchOutcome :=
  match getObj slackEvent "event" with
  | none => DispatchOutcome.noEventObject
  | some evt =>
    match getStr evt "type" with
    | none => DispatchOutcome.noEventType
    | some t =>
      if t = "app_mention" then DispatchOutcome.handler HandlerKind.mention
      else if t = "message" then
        if getStrD evt "thread_ts" ≠ "" then
          if getStrD evt "channel_type" = "im" then
            DispatchOutcome.handler HandlerKind.directThread
          else
            DispatchOutcome.handler HandlerKind.thread
        else if getStrD evt "channel_type" = "im" then
          DispatchOutcome.handler HandlerKind.directMessage
        else
          DispatchOutcome.ignoredMessage
      else DispatchOutcome.unhandledType t

/-- Terminal outcomes of the `/slack/events` handler
(`main.go` lines 60-207). -/
inductive EventsOutcome where
  /-- Classified as a misrouted form-encoded command (lines 79-90): the
  request, body restored, is handed to `handleSlashCommand`. -/
  | toCommand (r : CommandResult)
  /-- URL-verification handshake echo (lines 98-105): `Content-Type:
  text/plain`, body = the challenge, implicit 200. -/
  | echo (challenge : String)
  /-- Non-empty body that is not valid JSON: 400, line 110. -/
  | invalidJson
  /-- `NewSecretsVerifier` errored: 400, line 119. -/
  | constructFail
  /-- `sv.Ensure()` errored: 401, line 126. -/
  | sigFail
  /-- Post-verification `json.Unmarshal` failed: 500, line 134 (reachable
  only with an empty body, which skips the line-94 block). -/
  | eventParseFail
  /-- Acknowledged 200 (line 206); `d` is the goroutine's routing. -/
  | accepted (d : DispatchOutcome)
deriving Repr, DecidableEq

/-- Result of the events endpoint; `ensureRun` records whether
`sv.Ensure()` was executed for this request (on either path). -/
structure EventsResult where
  outcome : EventsOutcome
  ensureRun : Bool
deriving Repr, DecidableEq

/-- Signature verification and dispatch stage of the events endpoint
(`main.go` lines 115-207): construct the verifier, `Ensure` over the raw
body, re-unmarshal, and hand the envelope to the dispatch goroutine. -/
def verifyAndDispatch (parse : Option JsonObj) (v : VerifierOutcome) :
    EventsResult :=
  match v with
  | VerifierOutcome.constructError => ⟨EventsOutcome.constructFail, false⟩
  | VerifierOutcome.signatureMismatch => ⟨EventsOutcome.sigFail, true⟩
  | VerifierOutcome.valid =>
    match parse with
    | none => ⟨EventsOutcome.eventParseFail, true⟩
    | some o => ⟨EventsOutcome.accepted (dispatchEvent o), true⟩

/-- The `/slack/events` handler (`main.go` lines 60-207). Inputs:
`contentType` -- the `Content-Type` header value; `body` -- the raw body
bytes; `parse` -- the outcome of `json.Unmarshal(body)` into a map (the
same library call at lines 96 and 132, hence a single input); `v` -- the
signature verifier's outcome for this request's headers and body; `form`
-- the outcome of `ParseForm` should the slash-command path run. Control
flow: the form-encoded check (line 81) runs first; then, for a non-empty
body, the JSON-parse / handshake check (lines 94-113); then signature
verification and dispatch. -/
def eventsEndpoint (contentType body : String) (parse : Option JsonObj)
    (v : VerifierOutcome) (form : Option FormData) : EventsResult :=
  if contentType = "application/x-www-form-urlencoded"
      ∨ strContains body "command=" = true then
    let r := handleSlashCommand body v form
    ⟨EventsOutcome.toCommand r, r.ensureRun⟩
  else if body = "" then
    verifyAndDispatch parse v
  else
    match parse with
    | none => ⟨EventsOutcome.invalidJson, false⟩
    | some o =>
      if getStr o "type" = some "url_verification" then
        match getStr o "challenge" with
        | some c => ⟨EventsOutcome.echo c, false⟩
        | none => verifyAndDispatch parse v
      else verifyAndDispatch parse v

/-- HTTP status written by the events endpoint. Go writes an implicit 200
on the echo path (`w.Write` without `WriteHeader`, line 103) and on
acknowledgement (line 206). -/
def eventsStatus : EventsOutcome → Nat
  | EventsOutcome.toCommand r => commandStatus r.outcome
  | EventsOutcome.echo _ => 200
  | EventsOutcome.invalidJson => 400
  | EventsOutcome.constructFail => 400
  | EventsOutcome.sigFail => 401
  | EventsOutcome.eventParseFail => 500
  | EventsOutcome.accepted _ => 200

/-- Response body written by the events endpoint: only the handshake echo
ever writes one. -/
def eventsRespBody : EventsOutcome → Option String
  | EventsOutcome.echo c => some c
  | _ => none

/-- `Content-Type` response header: set only on the handshake echo
(line 102). -/
def eventsRespCType : EventsOutcome → Option String
  | EventsOutcome.echo _ => some "text/plain"
  | _ => none

/-- Whether `slack.NewSecretsVerifier` was invoked for the request: false
only on the echo path and the invalid-JSON rejection, which return before
line 116; the slash-command path always constructs its verifier. -/
def eventsVerifierConstructed : EventsOutcome → Bool
  | EventsOutcome.echo _ => false
  | EventsOutcome.invalidJson => false
  | _ => true

/-- Event handler dispatched by the events endpoint, if any. -/
def eventDispatched : EventsOutcome → Option HandlerKind
  | EventsOutcome.accepted (DispatchOutcome.handler h) => some h
  | _ => none

/-- Command handler dispatched by the events endpoint (via the misrouted
form path), if any. -/
def commandDispatched : EventsOutcome → Option CommandName
  | EventsOutcome.toCommand r => commandDispatch r.outcome
  | _ => none

/-- The request carries a handshake payload: non-empty body decoding to a
JSON object with string `type` equal to `url_verification` and a string
`challenge` (the condition of lines 94-105). -/
def isHandshake (body : String) (parse : Option JsonObj) : Bool :=
  (!(body = "")) &&
    (match parse with
     | some o =>
       decide (getStr o "type" = some "url_verification")
         && (getStr o "challenge").isSome
     | none => false)

/-- The fields of a `slackevents.MessageEvent` inspected by the Go
message handler. -/
structure MessageEvent where
  threadTs : String
  channelType : String
  botId : String
  subType : String
  text : String
deriving Repr, DecidableEq

/-- The guard of `MessageHandler.HandleThreadMessage` (Go `handlers`
package): the handler returns immediately -- acts on nothing -- unless
the event has a thread timestamp, is not in an IM channel, has no bot id,
no subtype, and its lowercased text has leading segment `hey ragbot`. -/
def threadHandlerActs (e : MessageEvent) : Bool :=
  !(e.threadTs == "" || e.channelType == "im" || !(e.botId == "")
    || !(e.subType == "")
    || !(leadsWith ("hey ragbot".toList) (lowercase e.text)))

/-- The claim's routing table, written from the spec's words ("state
machine over event type tag") for comparison with `dispatchEvent`:
app_mention → mention handler; message with thread and direct channel →
direct-thread handler; message with thread otherwise → thread handler;
message in a direct channel without thread → direct-message handler; any
other message → ignored; any other type → logged as unhandled. -/
def dispatchSpec (slackEvent : JsonObj) : DispatchOutcome :=
  match getObj slackEvent "event" with
  | none => DispatchOutcome.noEventObject
  | some evt =>
    match getStr evt "type" with
    | none => DispatchOutcome.noEventType
    | some t =>
      if t = "app_mention" then DispatchOutcome.handler HandlerKind.mention
      else if t ≠ "message" then DispatchOutcome.unhandledType t
      else if getStrD evt "thread_ts" ≠ ""
          ∧ getStrD evt "channel_type" = "im" then
        DispatchOutcome.handler HandlerKind.directThread
      else if getStrD evt "thread_ts" ≠ "" then
        DispatchOutcome.handler HandlerKind.thread
      else if getStrD evt "channel_type" = "im" then
        DispatchOutcome.handler HandlerKind.directMessage
      else DispatchOutcome.ignoredMessage

/-! ## The standalone Bolt middlewares (`utils.js`)

`utils.js` holds two Bolt middlewares that are not imported by either
entry point (`src/app.js` registers no middleware and does not import
`utils.js`; neither does `bolt.js`); they are nonetheless code of the
repository and are embedded here as written. -/

/-- Dedup window of the `processedEventIds` middleware: ids are deleted
by a `setTimeout` 30000 ms after insertion. -/
def dedupWindowMs : Nat := 30000

/-- Event-id derivation of the `processedEventIds` middleware:
`payload.event_id || (payload.event ? channel-ts : null)`; JavaScript's
`||` treats the empty string as falsy, so an empty `event_id` falls back
to the composite id. `event` carries the `channel` and `ts` fields. -/
def dedupEventId (event_id : Option String)
    (event : Option (String × String)) : Option String :=
  let composite : Option String :=
    match event with
    | some (channel, ts) => some (channel ++ "-" ++ ts)
    | none => none
  match event_id with
  | some s => if s = "" then composite else some s
  | none => composite

/-- State of the `processedEventIds` set: each id with its insertion time
in ms; the `setTimeout` deletion is modelled by dropping entries whose
window has elapsed before each membership test. -/
abbrev DedupState := List (String × Nat)

/-- Entries still present at time `now`: a `setTimeout(delete, 30000)`
armed at `t` has fired once `t + 30000 ≤ now`. -/
def dedupLive (st : DedupState) (now : Nat) : DedupState :=
  st.filter (fun p => decide (now < p.2 + dedupWindowMs))

/-- One pass of the `processedEventIds` middleware at time `now`: skip
(do not call `next`) when the derived id is already in the set; otherwise
insert it, arm its deletion timer, and call `next`. Returns the new state
and whether the event was forwarded to `next`. -/
def dedupStep (st : DedupState) (now : Nat) (eid : Option String) :
    DedupState × Bool :=
  let live := dedupLive st now
  match eid with
  | none => (live, true)
  | some i =>
    if live.any (fun p => p.1 == i) then (live, false)
    else ((i, now) :: live, true)

/-- The `appStartTime` middleware of `utils.js`: with `eventTime` the
event's `ts` in ms when present (else the current time), the event is
forwarded to `next` iff `eventTime < appStartTime` is false. `tsMs` is
the already-scaled `parseFloat(payload.event.ts) * 1000`. -/
def appStartFilter (appStartTime now : Nat) (tsMs : Option Nat) : Bool :=
  let eventTime := tsMs.getD now
  !(decide (eventTime < appStartTime))

/-! ## Concrete request fixtures -/

/-- An `app_mention` event delivery with an explicit `event_id`. -/
def dupBody : String :=
  "\x7b\"event_id\":\"Ev00000001\",\"event\":\x7b\"type\":\"app_mention\",\"user\":\"U1\",\"text\":\"<@B1> hi\",\"channel\":\"C1\",\"ts\":\"200.000100\"\x7d\x7d"

/-- The decoding of `dupBody`. -/
def dupJson : JsonObj :=
  [("event_id", Json.str "Ev00000001"),
   ("event", Json.obj
     [("type", Json.str "app_mention"), ("user", Json.str "U1"),
      ("text", Json.str "<@B1> hi"), ("channel", Json.str "C1"),
      ("ts", Json.str "200.000100")])]

/-- A direct message whose platform timestamp is one second after the
epoch, hence earlier than any possible process start. -/
def staleBody : String :=
  "\x7b\"event\":\x7b\"type\":\"message\",\"channel_type\":\"im\",\"user\":\"U2\",\"text\":\"hello\",\"channel\":\"D1\",\"ts\":\"1.000000\"\x7d\x7d"

/-- The decoding of `staleBody`. -/
def staleJson : JsonObj :=
  [("event", Json.obj
    [("type", Json.str "message"), ("channel_type", Json.str "im"),
     ("user", Json.str "U2"), ("text", Json.str "hello"),
     ("channel", Json.str "D1"), ("ts", Json.str "1.000000")])]

/-- A handshake payload whose challenge token contains `command=`. -/
def challengeCmdBody : String :=
  "\x7b\"type\":\"url_verification\",\"challenge\":\"command=x\"\x7d"

/-- The decoding of `challengeCmdBody`. -/
def challengeCmdJson : JsonObj :=
  [("type", Json.str "url_verification"),
   ("challenge", Json.str "command=x")]

/-- Go `ParseForm` result for `challengeCmdBody` read as a form body: the
text up to the first `=` becomes the key, the rest the value; there is no
`command` key. -/
def challengeCmdForm : FormData :=
  [("\x7b\"type\":\"url_verification\",\"challenge\":\"command", "x\"\x7d")]

/-! ## Claims -/

/-- C4: a POST to the events endpoint whose `Content-Type` is
form-urlencoded, or whose raw body contains `command=`, is handed with
its body to the slash-command path before any JSON parsing, and is never
rejected as invalid JSON: the result is `handleSlashCommand` on the same
body (independent of the JSON parse outcome, which the routed branch
never consults). -/
theorem classifier_form_routes_to_command (contentType body : String)
    (parse : Option JsonObj) (v : VerifierOutcome) (form : Option FormData)
    (h : contentType = "application/x-www-form-urlencoded"
        ∨ strContains body "command=" = true) :
    (eventsEndpoint contentType body parse v form).outcome
        = EventsOutcome.toCommand (handleSlashCommand body v form) ∧
    (eventsEndpoint contentType body parse v form).outcome
        ≠ EventsOutcome.invalidJson := by
  unfold eventsEndpoint
  rw [if_pos h]
  exact ⟨rfl, fun hEq => EventsOutcome.noConfusion hEq⟩

/-- Witness for `classifier_form_routes_to_command`: a form body
`command=/foo&text=bar` sent to the events endpoint is handled as a
command. -/
theorem classifier_form_routes_to_command_witness :
    (eventsEndpoint "application/x-www-form-urlencoded"
        "command=%2Ffoo&text=bar" none VerifierOutcome.valid
        (some [("command", "/foo"), ("text", "bar")])).outcome
      = EventsOutcome.toCommand
          (handleSlashCommand "command=%2Ffoo&text=bar"
            VerifierOutcome.valid
            (some [("command", "/foo"), ("text", "bar")])) :=
  (classifier_form_routes_to_command _ _ _ _ _ (Or.inl rfl)).1

/-- C3 counterexample: the handshake body
`{"type":"url_verification","challenge":"command=x"}` satisfies the
claim's hypothesis (JSON with `type` = `url_verification` and a string
`challenge`), yet because its raw body contains `command=` the classifier
routes it to the slash-command path first: the response is 400 with no
body and no `text/plain` header, not a 200 echo of the challenge. -/
theorem handshake_claim_counterexample :
    getStr challengeCmdJson "type" = some "url_verification" ∧
    getStr challengeCmdJson "challenge" = some "command=x" ∧
    strContains challengeCmdBody "command=" = true ∧
    eventsStatus (eventsEndpoint "application/json" challengeCmdBody
        (some challengeCmdJson) VerifierOutcome.valid
        (some challengeCmdForm)).outcome = 400 ∧
    eventsRespBody (eventsEndpoint "application/json" challengeCmdBody
        (some challengeCmdJson) VerifierOutcome.valid
        (some challengeCmdForm)).outcome = none ∧
    eventsRespCType (eventsEndpoint "application/json" challengeCmdBody
        (some challengeCmdJson) VerifierOutcome.valid
        (some challengeCmdForm)).outcome = none := by
  decide

/-- C3 as amended: for a POST to the events endpoint that is not
classified as form-encoded (content type not form-urlencoded and raw body
without `command=`), whose non-empty body is JSON with `type` =
`url_verification` and a string `challenge`, the response is 200 with
`Content-Type: text/plain` and body exactly the challenge, with no
signature verification and no dispatch. -/
theorem handshake_echo_contract (contentType body challenge : String)
    (o : JsonObj) (v : VerifierOutcome) (form : Option FormData)
    (hct : contentType ≠ "application/x-www-form-urlencoded")
    (hcmd : strContains body "command=" = false)
    (hne : body ≠ "")
    (hty : getStr o "type" = some "url_verification")
    (hch : getStr o "challenge" = some challenge) :
    eventsEndpoint contentType body (some o) v form
        = ⟨EventsOutcome.echo challenge, false⟩ ∧
    eventsStatus (EventsOutcome.echo challenge) = 200 ∧
    eventsRespBody (EventsOutcome.echo challenge) = some challenge ∧
    eventsRespCType (EventsOutcome.echo challenge) = some "text/plain" ∧
    eventsVerifierConstructed (EventsOutcome.echo challenge) = false ∧
    eventDispatched (EventsOutcome.echo challenge) = none := by
  refine ⟨?_, rfl, rfl, rfl, rfl, rfl⟩
  have hOr : ¬(contentType = "application/x-www-form-urlencoded"
      ∨ strContains body "command=" = true) := by
    rintro (h | h)
    · exact hct h
    · rw [hcmd] at h
      exact Bool.noConfusion h
  unfold eventsEndpoint
  rw [if_neg hOr, if_neg hne]
  simp [hty, hch]

/-- Witness for `handshake_echo_contract` at the spec's own example
`{"type":"url_verification","challenge":"abc123"}`. -/
theorem handshake_echo_contract_witness :
    eventsEndpoint "application/json"
        "\x7b\"type\":\"url_verification\",\"challenge\":\"abc123\"\x7d"
        (some [("type", Json.str "url_verification"),
               ("challenge", Json.str "abc123")])
        VerifierOutcome.signatureMismatch none
      = ⟨EventsOutcome.echo "abc123", false⟩ :=
  (handshake_echo_contract "application/json"
    "\x7b\"type\":\"url_verification\",\"challenge\":\"abc123\"\x7d" "abc123"
    [("type", Json.str "url_verification"),
     ("challenge", Json.str "abc123")]
    VerifierOutcome.signatureMismatch none (by decide) (by decide)
    (by decide) (by decide) (by decide)).1

/-- C8 counterexample: an empty body is neither form-encoded nor valid
JSON, yet the events endpoint does not answer 400 without verification:
the empty body skips the line-94 JSON check, signature verification runs
(here: succeeds), and the post-verification unmarshal fails with 500. -/
theorem malformed_claim_counterexample :
    strContains "" "command=" = false ∧
    eventsStatus (eventsEndpoint "application/json" "" none
        VerifierOutcome.valid (some [])).outcome = 500 ∧
    eventsVerifierConstructed (eventsEndpoint "application/json" "" none
        VerifierOutcome.valid (some [])).outcome = true ∧
    (eventsEndpoint "application/json" "" none
        VerifierOutcome.valid (some [])).ensureRun = true := by
  decide

/-- C8 as amended: for a POST to the events endpoint with a NON-EMPTY
body that is neither form-encoded (content type not form-urlencoded, no
`command=` substring) nor valid JSON, the server responds 400 and
performs no signature verification and no dispatch. -/
theorem malformed_nonempty_body_400 (contentType body : String)
    (v : VerifierOutcome) (form : Option FormData)
    (hct : contentType ≠ "application/x-www-form-urlencoded")
    (hcmd : strContains body "command=" = false)
    (hne : body ≠ "") :
    eventsEndpoint contentType body none v form
        = ⟨EventsOutcome.invalidJson, false⟩ ∧
    eventsStatus EventsOutcome.invalidJson = 400 ∧
    eventsVerifierConstructed EventsOutcome.invalidJson = false ∧
    eventDispatched EventsOutcome.invalidJson = none ∧
    commandDispatched EventsOutcome.invalidJson = none := by
  refine ⟨?_, rfl, rfl, rfl, rfl⟩
  have hOr : ¬(contentType = "application/x-www-form-urlencoded"
      ∨ strContains body "command=" = true) := by
    rintro (h | h)
    · exact hct h
    · rw [hcmd] at h
      exact Bool.noConfusion h
  unfold eventsEndpoint
  rw [if_neg hOr, if_neg hne]

/-- Witness for `malformed_nonempty_body_400`: a plain-text body. -/
theorem malformed_nonempty_body_400_witness :
    eventsEndpoint "text/plain" "not json at all" none
        VerifierOutcome.valid none
      = ⟨EventsOutcome.invalidJson, false⟩ :=
  (malformed_nonempty_body_400 "text/plain" "not json at all"
    VerifierOutcome.valid none (by decide) (by decide) (by decide)).1

/-- A JSON body with `type` = `url_verification`, no `challenge` field,
and a `command=` substring inside another field's value. -/
def urlVerNoChallengeBody : String :=
  "\x7b\"type\":\"url_verification\",\"x\":\"command=\"\x7d"

/-- The decoding of `urlVerNoChallengeBody`. -/
def urlVerNoChallengeJson : JsonObj :=
  [("type", Json.str "url_verification"), ("x", Json.str "command=")]

/-- Go `ParseForm` result for `urlVerNoChallengeBody` read as a form
body: the text up to the first `=` becomes the key, the rest the value;
there is no `command` key. -/
def urlVerNoChallengeForm : FormData :=
  [("\x7b\"type\":\"url_verification\",\"x\":\"command", "\"\x7d")]

/-- C10 counterexample: the body
`{"type":"url_verification","x":"command="}` satisfies the claim's
hypothesis (JSON with `type` = `url_verification` and no string
`challenge`), yet it does not fall through to ordinary event-envelope
processing: because its raw body contains `command=`, the line-81
classifier routes it to the slash-command path, which answers 400 for
the missing `command` form field. -/
theorem missing_challenge_claim_counterexample :
    getStr urlVerNoChallengeJson "type" = some "url_verification" ∧
    getStr urlVerNoChallengeJson "challenge" = none ∧
    strContains urlVerNoChallengeBody "command=" = true ∧
    (eventsEndpoint "application/json" urlVerNoChallengeBody
        (some urlVerNoChallengeJson) VerifierOutcome.valid
        (some urlVerNoChallengeForm)).outcome
      = EventsOutcome.toCommand
          (handleSlashCommand urlVerNoChallengeBody VerifierOutcome.valid
            (some urlVerNoChallengeForm)) ∧
    eventsStatus (eventsEndpoint "application/json" urlVerNoChallengeBody
        (some urlVerNoChallengeJson) VerifierOutcome.valid
        (some urlVerNoChallengeForm)).outcome = 400 := by
  decide

/-- C10 as amended: a POST to the events endpoint that is NOT classified
as form-encoded (content type not form-urlencoded and raw body without
`command=`), whose JSON body has `type` = `url_verification` but whose
`challenge` is absent or not a string, produces no handshake echo: the
request falls through to signature verification and is then processed
exactly as an ordinary event envelope (`verifyAndDispatch`), with no
response body and no `Content-Type` header, the verifier having been
invoked. -/
theorem missing_challenge_falls_through (contentType body : String)
    (o : JsonObj) (v : VerifierOutcome) (form : Option FormData)
    (hct : contentType ≠ "application/x-www-form-urlencoded")
    (hcmd : strContains body "command=" = false)
    (hne : body ≠ "")
    (hty : getStr o "type" = some "url_verification")
    (hch : getStr o "challenge" = none) :
    eventsEndpoint contentType body (some o) v form
        = verifyAndDispatch (some o) v ∧
    eventsRespBody (verifyAndDispatch (some o) v).outcome = none ∧
    eventsRespCType (verifyAndDispatch (some o) v).outcome = none ∧
    eventsVerifierConstructed (verifyAndDispatch (some o) v).outcome
        = true := by
  have hOr : ¬(contentType = "application/x-www-form-urlencoded"
      ∨ strContains body "command=" = true) := by
    rintro (h | h)
    · exact hct h
    · rw [hcmd] at h
      exact Bool.noConfusion h
  refine ⟨?_, ?_, ?_, ?_⟩
  · unfold eventsEndpoint
    rw [if_neg hOr, if_neg hne]
    simp [hty, hch]
  all_goals
    cases v <;>
      simp [verifyAndDispatch, eventsRespBody, eventsRespCType,
        eventsVerifierConstructed]

/-- Witness for `missing_challenge_falls_through`: `url_verification`
with a numeric `challenge`, invalid signature. -/
theorem missing_challenge_falls_through_witness :
    eventsEndpoint "application/json"
        "\x7b\"type\":\"url_verification\",\"challenge\":7\x7d"
        (some [("type", Json.str "url_verification"),
               ("challenge", Json.num 7)])
        VerifierOutcome.signatureMismatch none
      = verifyAndDispatch
          (some [("type", Json.str "url_verification"),
                 ("challenge", Json.num 7)])
          VerifierOutcome.signatureMismatch :=
  (missing_challenge_falls_through "application/json"
    "\x7b\"type\":\"url_verification\",\"challenge\":7\x7d"
    [("type", Json.str "url_verification"), ("challenge", Json.num 7)]
    VerifierOutcome.signatureMismatch none (by decide) (by decide)
    (by decide) rfl rfl).1

/-- C9: on the slash-command path with an empty buffered body, the
verifier is constructed but `sv.Ensure()` is skipped, so a
present-but-incorrect signature (any outcome other than a construction
error, in particular a mismatch) does not yield 401; with no `command`
form field the request fails 400 and nothing is dispatched. -/
theorem empty_body_skips_signature_check (v : VerifierOutcome)
    (f : FormData)
    (hv : v ≠ VerifierOutcome.constructError)
    (hc : formGet f "command" = "") :
    handleSlashCommand "" v (some f)
        = ⟨CommandOutcome.missingCommand, false⟩ ∧
    commandStatus CommandOutcome.missingCommand = 400 ∧
    commandDispatch CommandOutcome.missingCommand = none := by
  refine ⟨?_, rfl, rfl⟩
  simp [handleSlashCommand, hv, formStage, hc]

/-- Witness for `empty_body_skips_signature_check`: empty body, wrong
signature, empty form. -/
theorem empty_body_skips_signature_check_witness :
    handleSlashCommand "" VerifierOutcome.signatureMismatch (some [])
      = ⟨CommandOutcome.missingCommand, false⟩ :=
  (empty_body_skips_signature_check VerifierOutcome.signatureMismatch []
    (by decide) rfl).1

/-- C7: on a signed slash-command submission (valid signature, non-empty
body), the command name is matched exactly against the fixed registry:
`/ragbot-help` dispatches the help handler with a 200; any name not in
the registry (in particular `/nonexistent`) dispatches nothing -- hence
no Agent Client call, which only handlers perform -- and still answers
200 with an empty body. -/
theorem command_registry_exact_match (body : String) (f : FormData)
    (hb : body ≠ "") :
    (formGet f "command" = "/ragbot-help" →
      handleSlashCommand body VerifierOutcome.valid (some f)
        = ⟨CommandOutcome.ok (some CommandName.help), true⟩) ∧
    (∀ c : String, formGet f "command" = c → c ≠ "" →
      commandRegistry c = none →
      handleSlashCommand body VerifierOutcome.valid (some f)
        = ⟨CommandOutcome.ok none, true⟩) ∧
    commandRegistry "/nonexistent" = none ∧
    commandStatus (CommandOutcome.ok (some CommandName.help)) = 200 ∧
    commandStatus (CommandOutcome.ok none) = 200 ∧
    commandRespBody (CommandOutcome.ok none) = none ∧
    commandDispatch (CommandOutcome.ok none) = none := by
  refine ⟨?_, ?_, by decide, rfl, rfl, rfl, rfl⟩
  · intro hc
    simp [handleSlashCommand, hb, formStage, hc, commandRegistry]
  · intro c hc hcne hreg
    simp [handleSlashCommand, hb, formStage, hc, hcne, hreg]

/-- Witness for `command_registry_exact_match`: both a registered and an
unregistered name on concrete signed submissions. -/
theorem command_registry_exact_match_witness :
    handleSlashCommand "command=%2Fragbot-help" VerifierOutcome.valid
        (some [("command", "/ragbot-help")])
      = ⟨CommandOutcome.ok (some CommandName.help), true⟩ ∧
    handleSlashCommand "command=%2Fnonexistent" VerifierOutcome.valid
        (some [("command", "/nonexistent")])
      = ⟨CommandOutcome.ok none, true⟩ :=
  ⟨(command_registry_exact_match "command=%2Fragbot-help"
      [("command", "/ragbot-help")] (by decide)).1 rfl,
   (command_registry_exact_match "command=%2Fnonexistent"
      [("command", "/nonexistent")] (by decide)).2.1 "/nonexistent" rfl
      (by decide) (by decide)⟩

/-- Auth failure on the slash-command path: a verifier construction
error, or an executed `Ensure` that mismatches, yields 400/401 and no
dispatch. -/
lemma slashCommand_authfail (body : String) (v : VerifierOutcome)
    (form : Option FormData)
    (h : v = VerifierOutcome.constructError
      ∨ (v = VerifierOutcome.signatureMismatch
          ∧ (handleSlashCommand body v form).ensureRun = true)) :
    (commandStatus (handleSlashCommand body v form).outcome = 400
      ∨ commandStatus (handleSlashCommand body v form).outcome = 401) ∧
    commandDispatch (handleSlashCommand body v form).outcome = none := by
  rcases h with h | ⟨hv, hrun⟩
  · subst h
    simp [handleSlashCommand, commandStatus, commandDispatch]
  · subst hv
    by_cases hb : body = ""
    · subst hb
      simp [handleSlashCommand] at hrun
    · simp [handleSlashCommand, hb, commandStatus, commandDispatch]

/-- Auth failure in the verification-and-dispatch stage of the events
endpoint. -/
lemma verifyAndDispatch_authfail (parse : Option JsonObj)
    (v : VerifierOutcome)
    (h : v = VerifierOutcome.constructError
      ∨ v = VerifierOutcome.signatureMismatch) :
    (eventsStatus (verifyAndDispatch parse v).outcome = 400
      ∨ eventsStatus (verifyAndDispatch parse v).outcome = 401) ∧
    eventDispatched (verifyAndDispatch parse v).outcome = none ∧
    commandDispatched (verifyAndDispatch parse v).outcome = none := by
  rcases h with h | h <;> subst h <;>
    simp [verifyAndDispatch, eventsStatus, eventDispatched,
      commandDispatched]

/-- C5: for every non-handshake request to the events endpoint or the
commands endpoint whose signature verification fails -- the verifier
cannot be constructed (timestamp header missing, unparseable, or outside
the allowed skew), or the executed signature comparison mismatches -- the
server responds 400 or 401 and dispatches no event handler and no
command handler. -/
theorem authfail_rejects_without_dispatch (contentType body : String)
    (parse : Option JsonObj) (v : VerifierOutcome)
    (form : Option FormData)
    (hnh : isHandshake body parse = false) :
    ((v = VerifierOutcome.constructError
        ∨ (v = VerifierOutcome.signatureMismatch
            ∧ (eventsEndpoint contentType body parse v form).ensureRun
                = true)) →
      (eventsStatus
            (eventsEndpoint contentType body parse v form).outcome = 400
        ∨ eventsStatus
            (eventsEndpoint contentType body parse v form).outcome = 401)
      ∧ eventDispatched
          (eventsEndpoint contentType body parse v form).outcome = none
      ∧ commandDispatched
          (eventsEndpoint contentType body parse v form).outcome = none)
    ∧
    ((v = VerifierOutcome.constructError
        ∨ (v = VerifierOutcome.signatureMismatch
            ∧ (handleSlashCommand body v form).ensureRun = true)) →
      (commandStatus (handleSlashCommand body v form).outcome = 400
        ∨ commandStatus (handleSlashCommand body v form).outcome = 401)
      ∧ commandDispatch (handleSlashCommand body v form).outcome
          = none) := by
  refine ⟨?_, slashCommand_authfail body v form⟩
  intro h
  by_cases hform : contentType = "application/x-www-form-urlencoded"
      ∨ strContains body "command=" = true
  · have hEq : eventsEndpoint contentType body parse v form
        = ⟨EventsOutcome.toCommand (handleSlashCommand body v form),
           (handleSlashCommand body v form).ensureRun⟩ := by
      unfold eventsEndpoint
      rw [if_pos hform]
    rw [hEq] at h ⊢
    have hc := slashCommand_authfail body v form (by
      rcases h with h | ⟨hv, hrun⟩
      · exact Or.inl h
      · exact Or.inr ⟨hv, hrun⟩)
    exact ⟨hc.1, rfl, hc.2⟩
  · by_cases hb : body = ""
    · have hEq : eventsEndpoint contentType body parse v form
          = verifyAndDispatch parse v := by
        unfold eventsEndpoint
        rw [if_neg hform, if_pos hb]
      rw [hEq] at h ⊢
      exact verifyAndDispatch_authfail parse v (by
        rcases h with h | ⟨hv, _⟩
        · exact Or.inl h
        · exact Or.inr hv)
    · cases parse with
      | none =>
        have hEq : eventsEndpoint contentType body none v form
            = ⟨EventsOutcome.invalidJson, false⟩ := by
          unfold eventsEndpoint
          rw [if_neg hform, if_neg hb]
        rw [hEq]
        exact ⟨Or.inl rfl, rfl, rfl⟩
      | some o =>
        by_cases hty : getStr o "type" = some "url_verification"
        · cases hch : getStr o "challenge" with
          | some c =>
            exfalso
            simp [isHandshake, hb, hty, hch] at hnh
          | none =>
            have hEq : eventsEndpoint contentType body (some o) v form
                = verifyAndDispatch (some o) v := by
              unfold eventsEndpoint
              rw [if_neg hform, if_neg hb]
              simp [hty, hch]
            rw [hEq] at h ⊢
            exact verifyAndDispatch_authfail (some o) v (by
              rcases h with h | ⟨hv, _⟩
              · exact Or.inl h
              · exact Or.inr hv)
        · have hEq : eventsEndpoint contentType body (some o) v form
              = verifyAndDispatch (some o) v := by
            unfold eventsEndpoint
            rw [if_neg hform, if_neg hb]
            simp [hty]
          rw [hEq] at h ⊢
          exact verifyAndDispatch_authfail (some o) v (by
            rcases h with h | ⟨hv, _⟩
            · exact Or.inl h
            · exact Or.inr hv)

/-- Witness for `authfail_rejects_without_dispatch`: a stale or missing
timestamp header (verifier construction error) on a JSON event body, on
both paths. -/
theorem authfail_rejects_without_dispatch_witness :
    ((eventsStatus (eventsEndpoint "application/json" "{}" (some [])
          VerifierOutcome.constructError none).outcome = 400
      ∨ eventsStatus (eventsEndpoint "application/json" "{}" (some [])
          VerifierOutcome.constructError none).outcome = 401)
     ∧ eventDispatched (eventsEndpoint "application/json" "{}" (some [])
          VerifierOutcome.constructError none).outcome = none
     ∧ commandDispatched (eventsEndpoint "application/json" "{}"
          (some []) VerifierOutcome.constructError none).outcome = none)
    ∧
    ((commandStatus (handleSlashCommand "{}"
          VerifierOutcome.constructError none).outcome = 400
      ∨ commandStatus (handleSlashCommand "{}"
          VerifierOutcome.constructError none).outcome = 401)
     ∧ commandDispatch (handleSlashCommand "{}"
          VerifierOutcome.constructError none).outcome = none) :=
  ⟨(authfail_rejects_without_dispatch "application/json" "{}" (some [])
      VerifierOutcome.constructError none (by decide)).1 (Or.inl rfl),
   (authfail_rejects_without_dispatch "application/json" "{}" (some [])
      VerifierOutcome.constructError none (by decide)).2 (Or.inl rfl)⟩

/-- C6: the dispatch goroutine realises exactly the claim's routing
table (`dispatchEvent` agrees with `dispatchSpec` on every envelope):
app_mention → mention handler; message with thread and IM channel →
direct-thread handler; message with thread otherwise → thread handler;
message in an IM channel without thread → direct-message handler; any
other message ignored; any other type logged as unhandled with no
dispatch. In addition the thread handler acts only when the lowercased
text has the leading segment `hey ragbot`. -/
theorem dispatcher_routing_table :
    (∀ s : JsonObj, dispatchEvent s = dispatchSpec s) ∧
    (∀ e : MessageEvent, threadHandlerActs e = true →
      leadsWith ("hey ragbot".toList) (lowercase e.text) = true) := by
  constructor
  · intro s
    unfold dispatchEvent dispatchSpec
    cases getObj s "event" with
    | none => rfl
    | some evt =>
      dsimp only
      cases getStr evt "type" with
      | none => rfl
      | some t =>
        dsimp only
        by_cases h1 : t = "app_mention" <;>
          by_cases h2 : t = "message" <;>
          by_cases h3 : getStrD evt "thread_ts" = "" <;>
          by_cases h4 : getStrD evt "channel_type" = "im" <;>
          simp [h1, h2, h3, h4]
  · intro e h
    cases hl : leadsWith ("hey ragbot".toList) (lowercase e.text) with
    | true => rfl
    | false =>
      exfalso
      simp [threadHandlerActs] at h
      have h2 : leadsWith ("hey ragbot".toList) (lowercase e.text)
          = true := h.2
      rw [hl] at h2
      exact Bool.noConfusion h2

/-- The envelope of `dupBody`, for the `dispatcher_routing_table`
witness. -/
def mentionEnvelope : JsonObj :=
  [("event", Json.obj [("type", Json.str "app_mention"),
    ("text", Json.str "<@B1> hi")])]

/-- A thread reply the thread handler acts on, for the
`dispatcher_routing_table` witness. -/
def threadReply : MessageEvent :=
  ⟨"17.000200", "channel", "", "", "Hey Ragbot what changed?"⟩

/-- Witness for `dispatcher_routing_table`: a concrete `app_mention`
envelope routes to the mention handler, and a concrete acted-on thread
reply indeed leads with the bot-name greeting. -/
theorem dispatcher_routing_table_witness :
    dispatchEvent mentionEnvelope
        = DispatchOutcome.handler HandlerKind.mention ∧
    leadsWith ("hey ragbot".toList) (lowercase threadReply.text)
        = true := by
  refine ⟨?_, dispatcher_routing_table.2 threadReply (by decide)⟩
  rw [dispatcher_routing_table.1 mentionEnvelope]
  decide

/-- C1 counterexample: the events endpoint of the Go server keeps no
record of processed event ids -- it is a pure function of the single
delivery -- so two deliveries of the same event (same explicit
`event_id`, identical body, both within any window) each dispatch the
mention handler: two dispatches, not one, and neither delivery is
rejected by any deduplicator. -/
theorem dedup_claim_counterexample :
    (List.replicate 2 (eventsEndpoint "application/json" dupBody
        (some dupJson) VerifierOutcome.valid none)).map
      (fun r => eventDispatched r.outcome)
      = [some HandlerKind.mention, some HandlerKind.mention] := by
  decide

/-- C1 as amended: the 30-second deduplication exists only in the
standalone Bolt middleware of `utils.js` (not wired into the Go events
endpoint); within that middleware, of two deliveries carrying the same
derived event id, the second arriving while the first's 30-second
deletion timer is still pending, exactly the first is forwarded to the
handler chain: the first delivery calls `next`, the duplicate is skipped
(logged, not errored, no second dispatch). -/
theorem dedup_middleware_single_forward (st : DedupState) (i : String)
    (t₁ t₂ : Nat)
    (hfresh : (dedupLive st t₁).any (fun p => p.1 == i) = false)
    (h12 : t₁ ≤ t₂) (hwin : t₂ < t₁ + dedupWindowMs) :
    (dedupStep st t₁ (some i)).2 = true ∧
    (dedupStep (dedupStep st t₁ (some i)).1 t₂ (some i)).2 = false := by
  have hstate : (dedupStep st t₁ (some i)).1
      = (i, t₁) :: dedupLive st t₁ := by
    simp [dedupStep, hfresh]
  constructor
  · simp [dedupStep, hfresh]
  · rw [hstate]
    simp [dedupStep, dedupLive, List.filter_cons, hwin]

/-- Witness for `dedup_middleware_single_forward`: id `Ev00000001` first
seen at t=1000 ms is forwarded; its redelivery at t=20000 ms (19 s later,
inside the 30 s window) is skipped. -/
theorem dedup_middleware_single_forward_witness :
    (dedupStep [] 1000 (some "Ev00000001")).2 = true ∧
    (dedupStep (dedupStep [] 1000 (some "Ev00000001")).1 20000
        (some "Ev00000001")).2 = false :=
  dedup_middleware_single_forward [] "Ev00000001" 1000 20000 (by decide)
    (by decide) (by decide)

/-- C2 counterexample: the Go events endpoint captures no process-start
marker and never compares event timestamps against one -- it is a
function with no start-time input -- so a direct message whose platform
timestamp is `1.000000` (one second after the epoch, earlier than any
process start) is dispatched to the direct-message handler despite being
stale. -/
theorem stale_claim_counterexample :
    getStrD ((getObj staleJson "event").getD []) "ts" = "1.000000" ∧
    eventDispatched (eventsEndpoint "application/json" staleBody
        (some staleJson) VerifierOutcome.valid none).outcome
      = some HandlerKind.directMessage := by
  decide

/-- C2 as amended: the pre-start staleness filter exists only in the
standalone Bolt middleware of `utils.js` (not wired into the Go events
endpoint); within that middleware, an event carrying a timestamp earlier
than the app-start time is not forwarded to the handler chain. -/
theorem appStart_filter_skips_stale (appStartTime now t : Nat)
    (h : t < appStartTime) :
    appStartFilter appStartTime now (some t) = false := by
  simp [appStartFilter, h]

/-- Witness for `appStart_filter_skips_stale`: an event stamped 1000 ms
against an app started at 500000 ms is skipped. -/
theorem appStart_filter_skips_stale_witness :
    appStartFilter 500000 600000 (some 1000) = false :=
  appStart_filter_skips_stale 500000 600000 1000 (by decide)

end SlackRagServer
